import Mathlib

/-!
Shallow embedding of the live telemetry monitoring pipeline of
`src/node_manager.py` (class `NodeManager`), with proofs about its queue,
subscription, and consumer-loop behaviour.

Conventions of the embedding:
* Python `dict`s keyed by monitor id are association lists with unique keys
  (insertion order preserved, as in CPython).
* A Python `queue.Queue` is a FIFO `List` (head = oldest item).
* `time.time()` values and update intervals are rationals.
* Wire-level `sio.emit` calls are recorded in an `emitted` event log.
* The DearPyGui presentation layer (windows, plotters, status text colors) is
  an external collaborator: window existence is a boolean on the monitor
  record, and plot calls against an existing window are modelled as
  succeeding; all other control flow follows the source.
-/

namespace NodeMgr

/-- Outbound wire events emitted by `NodeManager` via `self.sio.emit`. -/
inductive Emission where
  | newdata (outputs : List String)
  | unsubscribe (output : String)
  | get_params
  | test_connection
  deriving DecidableEq, Repr

/-- Kind tag of a queued item (the `'type'` key of the queued dict). -/
inductive ItemType where
  | status_update
  | data_update
  deriving DecidableEq, Repr

/-- Raw payload of a `data_update` event, reduced to the shape of the numpy
array it converts to in `_process_and_plot_data_main_thread` (`dims = []` for
a 0-d scalar, `[n]` for a vector, `[h, w]` for an image, and so on). The
numeric contents are opaque to all queue and scheduling logic. -/
structure RawData where
  dims : List Nat
  deriving DecidableEq, Repr

/-- An ingestion-queue item: the dicts pushed into `status_update_queue` and
`monitor_data_queue`. Keys absent from a given dict are `none`. -/
structure Item where
  type : ItemType
  monitor_id : Option String
  status : Option String
  data : Option RawData
  timestamp : ℚ
  deriving DecidableEq, Repr

/-- Per-monitor record: the fields of `self.active_monitors[monitor_id]` that
the monitoring pipeline reads or writes (presentation-only fields such as DPG
text ids are omitted; `window_exists` stands for
`dpg.does_item_exist(window_id)`). -/
structure MonitorInfo where
  server_output_name : String
  window_exists : Bool
  subscribed : Bool
  last_update : ℚ
  min_update_interval : ℚ
  pending_data : Option Item
  skipped_frames : Nat
  update_count : Nat
  deriving DecidableEq, Repr

/-- The `NodeManager` state touched by the monitoring pipeline. -/
structure NMState where
  active_monitors : List (String × MonitorInfo)
  subscribed_outputs : List String
  monitor_data_queue : List Item
  status_update_queue : List Item
  simple_displays : List String
  socketio_connected : Bool
  socketio_enabled : Bool
  monitor_running : Bool
  emitted : List Emission
  deriving DecidableEq, Repr

/-- Python dict lookup `d.get(k)` / `k in d` on the monitor table. -/
def lookupM (k : String) : List (String × MonitorInfo) → Option MonitorInfo
  | [] => none
  | p :: rest => if p.1 = k then some p.2 else lookupM k rest

/-- Python `del d[k]` on the monitor table (dict keys are unique, so removing
every pair with key `k` is deletion of the single entry). -/
def delKey (k : String) (l : List (String × MonitorInfo)) :
    List (String × MonitorInfo) :=
  l.filter (fun p => ¬ p.1 = k)

/-- Python `d[k] = v` when `k` may already be present: replace the first
entry with key `k`, else leave the table unchanged (used only for updates of
existing monitors, mirroring in-place mutation of the `info` dict). -/
def updateKey (k : String) (v : MonitorInfo) :
    List (String × MonitorInfo) → List (String × MonitorInfo)
  | [] => []
  | p :: rest => if p.1 = k then (k, v) :: rest else p :: updateKey k v rest

/-- The status item built by `_safe_update_monitor_status`. -/
def mkStatusItem (mid st : String) (now : ℚ) : Item :=
  { type := ItemType.status_update, monitor_id := some mid,
    status := some st, data := none, timestamp := now }

/-- The data item queued by the `data_update` socket handler. -/
def mkDataItem (mid : String) (raw : Option RawData) (now : ℚ) : Item :=
  { type := ItemType.data_update, monitor_id := some mid,
    status := none, data := raw, timestamp := now }

/-- Bounded push on `status_update_queue` (maxsize 50), as performed by
`_safe_update_monitor_status`: if the queue is full, `get_nowait()` drops the
oldest item, then the new item is `put`. -/
def statusQueuePush (q : List Item) (it : Item) : List Item :=
  (if 50 ≤ q.length then q.tail else q) ++ [it]

/-- `_safe_update_monitor_status(monitor_id, status)`: push a status item
onto the bounded status queue. -/
def safe_update_monitor_status (s : NMState) (mid st : String) (now : ℚ) :
    NMState :=
  { s with status_update_queue :=
      (statusQueuePush s.status_update_queue (mkStatusItem mid st now)) }

/-- `Queue.put` on `monitor_data_queue` (maxsize 100): appends while below
capacity. (A `put` at capacity blocks in the source and admits nothing; the
handler's own `qsize() >= 100` guard normally prevents reaching it full.) -/
def dataQueuePut (q : List Item) (it : Item) : List Item :=
  if q.length < 100 then q ++ [it] else q

/-- The `data_update` socket event handler: validate the payload, drop the
event wholesale if the data queue already holds 100 items, find every active
monitor whose `server_output_name` matches, and queue one item per match. -/
def data_update (s : NMState) (name : String) (raw : Option RawData)
    (now : ℚ) : NMState :=
  if name = "" ∨ raw = none then s
  else if 100 ≤ s.monitor_data_queue.length then s
  else if s.active_monitors.filter
      (fun p => p.2.server_output_name = name) = [] then s
  else
    { s with monitor_data_queue :=
        ((s.active_monitors.filter
            (fun p => p.2.server_output_name = name)).foldl
          (fun q p => dataQueuePut q (mkDataItem p.1 raw now))
          s.monitor_data_queue) }

/-- `_request_next_frame`: no-op when disconnected or when nothing is
subscribed; otherwise emit one `newdata` event carrying the full list of
subscribed output names. -/
def request_next_frame (s : NMState) : NMState :=
  if s.socketio_connected = false then s
  else if s.subscribed_outputs = [] then s
  else { s with emitted := (s.emitted ++ [Emission.newdata s.subscribed_outputs]) }

/-- `_send_unsubscribe_request`: emit `unsubscribe` only while connected. -/
def send_unsubscribe_request (s : NMState) (name : String) : NMState :=
  if s.socketio_connected = true then
    { s with emitted := s.emitted ++ [Emission.unsubscribe name] }
  else s

/-- The loop at the end of `_unsubscribe_output`: flag every remaining
monitor on this output as unsubscribed and queue it a status update. -/
def markUnsubscribed (s : NMState) (name : String) (now : ℚ) : NMState :=
  let mids := (s.active_monitors.filter
      (fun p => p.2.server_output_name = name)).map Prod.fst
  let s1 := { s with active_monitors :=
      (s.active_monitors.map (fun p =>
        if p.2.server_output_name = name then
          (p.1, { p.2 with subscribed := false })
        else p)) }
  mids.foldl (fun st mid => safe_update_monitor_status st mid "unsubscribed" now) s1

/-- `_unsubscribe_output`: remove the name from the subscribed set and emit a
wire-level unsubscribe only if no monitor still uses it. -/
def unsubscribe_output (s : NMState) (name : String) (now : ℚ) : NMState :=
  if name = "" then s
  else if s.active_monitors.filter
        (fun p => p.2.server_output_name = name) = []
      ∧ name ∈ s.subscribed_outputs then
    markUnsubscribed
      (send_unsubscribe_request
        { s with subscribed_outputs := s.subscribed_outputs.erase name } name)
      name now
  else s

/-- The loop in `_subscribe_output` run on a first subscribe: flag every
monitor on this output as subscribed and queue it a status update. -/
def markSubscribed (s : NMState) (name : String) (now : ℚ) : NMState :=
  let mids := (s.active_monitors.filter
      (fun p => p.2.server_output_name = name)).map Prod.fst
  let s1 := { s with active_monitors :=
      (s.active_monitors.map (fun p =>
        if p.2.server_output_name = name then
          (p.1, { p.2 with subscribed := true })
        else p)) }
  mids.foldl (fun st mid => safe_update_monitor_status st mid "subscribed" now) s1

/-- The tail of `_subscribe_output`: whenever connected, request data. -/
def subscribeEmitPhase (s1 : NMState) : NMState :=
  if s1.socketio_connected = true then request_next_frame s1 else s1

/-- `_subscribe_output`: add the name to the subscribed set if absent, then —
whenever connected — request the next data frame. -/
def subscribe_output (s : NMState) (name : String) (now : ℚ) : NMState :=
  if name = "" then s
  else
    subscribeEmitPhase
      (if name ∈ s.subscribed_outputs then s
       else markSubscribed
        { s with subscribed_outputs := s.subscribed_outputs ++ [name] } name now)

/-- First pass of `_clear_queue_for_monitor`: drain the data queue,
collecting into `temp` (in order) every item not addressed to `mid`. -/
def drainKeep (mid : String) : List Item → List Item → List Item
  | [], temp => temp
  | it :: rest, temp =>
    if it.monitor_id = some mid then drainKeep mid rest temp
    else drainKeep mid rest (temp ++ [it])

/-- Second pass of `_clear_queue_for_monitor`: put every retained item back
into the (now empty) data queue, front to back. -/
def putBackAll : List Item → List Item → List Item
  | [], main => main
  | it :: rest, main => putBackAll rest (main ++ [it])

/-- `_clear_queue_for_monitor(monitor_id)`: scan-and-rebuild of the data
queue, removing the items addressed to `mid`. -/
def clear_queue_for_monitor (mid : String) (q : List Item) : List Item :=
  putBackAll (drainKeep mid q []) []

/-- Local-state removal in `_close_monitor`: delete the monitor from the
table and release its `simple_displays` entry. -/
def removeLocal (s : NMState) (mid : String) : NMState :=
  { s with active_monitors := delKey mid s.active_monitors,
           simple_displays :=
             (s.simple_displays.filter (fun d => ¬ d = mid)) }

/-- Queue purge step of `_close_monitor`. -/
def purgePhase (s : NMState) (mid : String) : NMState :=
  { s with monitor_data_queue :=
      (clear_queue_for_monitor mid s.monitor_data_queue) }

/-- Final step of `_close_monitor`: stop the updater when no monitors
remain. -/
def stopIfEmpty (s : NMState) : NMState :=
  if s.active_monitors = [] ∧ s.monitor_running = true then
    { s with monitor_running := false }
  else s

/-- `_close_monitor(monitor_id)`: no-op if the monitor is already gone; else
remove it from the table, release its display, unsubscribe its output, purge
its queued data items, and stop the updater when no monitors remain. -/
def close_monitor (s : NMState) (mid : String) (now : ℚ) : NMState :=
  match lookupM mid s.active_monitors with
  | none => s
  | some info =>
    stopIfEmpty (purgePhase
      (if info.server_output_name = "" then removeLocal s mid
       else unsubscribe_output (removeLocal s mid)
              info.server_output_name now) mid)

/-- The `connect` socket event handler: record the connected state, queue a
`connected` status item on the data queue, and emit `get_params`. -/
def on_connect (s : NMState) (now : ℚ) : NMState :=
  let s1 := { s with socketio_connected := true }
  let s2 := { s1 with monitor_data_queue :=
      (dataQueuePut s1.monitor_data_queue
        { type := ItemType.status_update, monitor_id := none,
          status := some "connected", data := none, timestamp := now }) }
  { s2 with emitted := s2.emitted ++ [Emission.get_params] }

/-- `_connect_socketio` (successful connection path): connect the transport
and emit the `test_connection` diagnostic. -/
def sioConnect (s : NMState) : NMState :=
  if s.socketio_enabled = false then s
  else { s with socketio_connected := true,
                emitted := s.emitted ++ [Emission.test_connection] }

/-- Adaptive frame-rate step table of `_process_and_plot_data_main_thread`
(2-d branch): the new `min_update_interval` as a function of the payload's
pixel count. -/
def adaptiveInterval (pixel_count : Nat) : ℚ :=
  if 1000000 < pixel_count then 1/2
  else if 250000 < pixel_count then 1/4
  else if 10000 < pixel_count then 1/10
  else 1/20

/-- The successful-render bookkeeping of `_process_and_plot_data_main_thread`:
store the (possibly retuned) monitor record with a fresh `last_update` and a
bumped `update_count`. -/
def updateAfterRender (s : NMState) (mid : String) (info : MonitorInfo)
    (now : ℚ) : NMState :=
  { s with active_monitors :=
      (updateKey mid
        { info with last_update := now, update_count := info.update_count + 1 }
        s.active_monitors) }

/-- `_process_and_plot_data_main_thread(monitor_id, raw_data, info)`: returns
the new state and the success flag. Fails if the monitor is gone, if its
window vanished (in which case the monitor is removed), if the payload is
missing, or if the array has more than 3 dimensions; the 2-d branch retunes
`min_update_interval` from the pixel count before plotting. Plot calls on an
existing window are the external presentation collaborator and are modelled
as succeeding. -/
def process_and_plot_data_main_thread (s : NMState) (mid : String)
    (raw : Option RawData) (now : ℚ) : NMState × Bool :=
  match lookupM mid s.active_monitors with
  | none => (s, false)
  | some info =>
    if info.window_exists = false then
      ({ s with active_monitors := delKey mid s.active_monitors }, false)
    else
      match raw with
      | none => (s, false)
      | some rd =>
        match rd.dims with
        | [] => (updateAfterRender s mid info now, true)
        | [_n] => (updateAfterRender s mid info now, true)
        | [h, w] =>
          (updateAfterRender s mid
            { info with min_update_interval := adaptiveInterval (h * w) }
            now, true)
        | [_a, _b, _c] => (updateAfterRender s mid info now, true)
        | _ => (s, false)

/-- The `info['last_update'] = current_time` write in `_monitor_update_frame`
after a successful render. -/
def setLastUpdate (s : NMState) (mid : String) (now : ℚ) : NMState :=
  match lookupM mid s.active_monitors with
  | none => s
  | some info =>
    { s with active_monitors :=
        (updateKey mid { info with last_update := now } s.active_monitors) }

/-- One iteration of the bounded data-drain loop of `_monitor_update_frame`:
pop the head of the data queue; for a `data_update` item whose monitor still
exists and whose window is alive, either render it (if due) or store it in
the monitor's single pending slot and bump the skipped-frame counter (if not
due). Returns processed and skipped deltas. -/
def consumeOne (s : NMState) (now : ℚ) : NMState × Nat × Nat :=
  match s.monitor_data_queue with
  | [] => (s, 0, 0)
  | item :: rest =>
    let s0 := { s with monitor_data_queue := rest }
    if item.type = ItemType.data_update then
      match item.monitor_id with
      | none => (s0, 0, 0)
      | some mid =>
        match lookupM mid s0.active_monitors with
        | none => (s0, 0, 0)
        | some info =>
          if info.window_exists = false then
            ({ s0 with active_monitors := delKey mid s0.active_monitors },
             0, 0)
          else if info.min_update_interval ≤ now - info.last_update then
            let step := process_and_plot_data_main_thread s0 mid item.data now
            if step.2 = true then
              (safe_update_monitor_status (setLastUpdate step.1 mid now)
                mid "receiving" now, 1, 0)
            else (step.1, 0, 0)
          else
            ({ s0 with active_monitors :=
                (updateKey mid
                  { info with pending_data := some item,
                              skipped_frames := info.skipped_frames + 1 }
                  s0.active_monitors) },
             0, 1)
    else (s0, 0, 0)

/-- The `for _ in range(max_items_per_frame)` data-drain loop of
`_monitor_update_frame` (`max_items_per_frame = 5`), accumulating processed
and skipped counts. -/
def dataDrainLoop : Nat → NMState → ℚ → NMState × Nat × Nat
  | 0, s, _ => (s, 0, 0)
  | fuel + 1, s, now =>
    match s.monitor_data_queue with
    | [] => (s, 0, 0)
    | _ :: _ =>
      let one := consumeOne s now
      let tailRes := dataDrainLoop fuel one.1 now
      (tailRes.1, one.2.1 + tailRes.2.1, one.2.2 + tailRes.2.2)

/-- The pending-sample sweep of `_monitor_update_frame` for one monitor:
render and clear the pending slot once enough time has elapsed. -/
def pendingSweepOne (s : NMState) (mid : String) (now : ℚ) : NMState :=
  match lookupM mid s.active_monitors with
  | none => s
  | some info =>
    match info.pending_data with
    | none => s
    | some item =>
      if info.min_update_interval ≤ now - info.last_update then
        let step := process_and_plot_data_main_thread s mid item.data now
        if step.2 = true then
          let s1 :=
            match lookupM mid step.1.active_monitors with
            | none => step.1
            | some info1 =>
              { step.1 with active_monitors :=
                  (updateKey mid
                    { info1 with last_update := now, pending_data := none }
                    step.1.active_monitors) }
          safe_update_monitor_status s1 mid "receiving" now
        else step.1
      else s

/-- One invocation of the consumer loop `_monitor_update_frame`: drain the
status queue (its effects are presentation-only), drain at most 5 data-queue
items, sweep pending samples, and decide whether a delayed
`request_next_frame` gets scheduled (returned flag). -/
def monitor_update_frame (s : NMState) (now : ℚ) : NMState × Bool :=
  let s1 := { s with status_update_queue := [] }
  let drained := dataDrainLoop 5 s1 now
  let s2 := drained.1
  let s3 := (s2.active_monitors.map Prod.fst).foldl
      (fun st mid => pendingSweepOne st mid now) s2
  (s3, decide (0 < drained.2.1) && s3.socketio_connected
        && decide (s3.monitor_data_queue.length < 20))

/-- Insert-or-replace into the `latest_items` dict of
`_monitor_queue_health` (CPython dicts keep the position of a replaced key). -/
def upsertLatest (k : Option String) (v : Item) :
    List (Option String × Item) → List (Option String × Item)
  | [] => [(k, v)]
  | p :: rest =>
    if p.1 = k then (k, v) :: rest else p :: upsertLatest k v rest

/-- The drain loop of `_monitor_queue_health`: walk the queue front to back,
keeping only the latest `data_update` item per monitor id in `latest` and
every other item, in order, in `temp`. -/
def healthScan : List Item → List (Option String × Item) → List Item →
    List (Option String × Item) × List Item
  | [], latest, temp => (latest, temp)
  | it :: rest, latest, temp =>
    if it.type = ItemType.data_update then
      healthScan rest (upsertLatest it.monitor_id it latest) temp
    else healthScan rest latest (temp ++ [it])

/-- `_monitor_queue_health`: when the data queue holds more than 50 items,
rebuild it as the latest data item per monitor followed by the retained
non-data items. -/
def monitor_queue_health (q : List Item) : List Item :=
  if 50 < q.length then
    let scanned := healthScan q [] []
    scanned.1.map Prod.snd ++ scanned.2
  else q

/-- Decidable test "is a `data_update` item addressed to monitor key `k`"
(`k` is the optional `'monitor_id'` entry of the queued dict). -/
def isDataFor (k : Option String) (it : Item) : Bool :=
  it.type == ItemType.data_update && it.monitor_id == k

/-- The values stored in the `latest_items` dict under key `k`. -/
def valuesFor (k : Option String) (l : List (Option String × Item)) :
    List Item :=
  (l.filter (fun p => p.1 == k)).map Prod.snd

/-- Invariant of the `latest_items` dict of `_monitor_queue_health`: every
stored value is a `data_update` item filed under its own monitor id. -/
def latestInv (l : List (Option String × Item)) : Prop :=
  ∀ p ∈ l, p.2.type = ItemType.data_update ∧ p.2.monitor_id = p.1

/-- Key uniqueness of the `latest_items` dict. -/
def latestKeysNodup (l : List (Option String × Item)) : Prop :=
  (l.map Prod.fst).Nodup

/-! ## Concrete states used by the witnesses and counterexamples -/

def c4state : NMState :=
  { active_monitors :=
      [("m4", { server_output_name := "psf.out", window_exists := true,
                subscribed := true, last_update := 0,
                min_update_interval := 1, pending_data := none,
                skipped_frames := 0, update_count := 0 })],
    subscribed_outputs := ["psf.out"], monitor_data_queue := [],
    status_update_queue := [], simple_displays := [],
    socketio_connected := true, socketio_enabled := true,
    monitor_running := true, emitted := [] }

def c5state : NMState :=
  { active_monitors := [], subscribed_outputs := ["psf.out"],
    monitor_data_queue := [], status_update_queue := [],
    simple_displays := [], socketio_connected := true,
    socketio_enabled := true, monitor_running := false, emitted := [] }

def c1info : MonitorInfo :=
  { server_output_name := "a.out", window_exists := true, subscribed := true,
    last_update := 0, min_update_interval := 1, pending_data := none,
    skipped_frames := 0, update_count := 0 }

def c1full : List Item :=
  (List.range 100).map (fun i => mkDataItem "m0" (some ⟨[]⟩) (i : ℚ))

def c1state : NMState :=
  { active_monitors := [("m0", c1info)], subscribed_outputs := ["a.out"],
    monitor_data_queue := c1full, status_update_queue := [],
    simple_displays := [], socketio_connected := true,
    socketio_enabled := true, monitor_running := true, emitted := [] }

def c1stateB : NMState :=
  { c1state with monitor_data_queue := [], status_update_queue := [],
                 simple_displays := [] }

def c7state : NMState :=
  { active_monitors := [], subscribed_outputs := ["psf.out"],
    monitor_data_queue := [], status_update_queue := [],
    simple_displays := [], socketio_connected := false,
    socketio_enabled := true, monitor_running := false, emitted := [] }

def c6state : NMState :=
  { active_monitors := [], subscribed_outputs := ["a.out"],
    monitor_data_queue := [], status_update_queue := [],
    simple_displays := [], socketio_connected := true,
    socketio_enabled := true, monitor_running := false, emitted := [] }

def c6stateB : NMState := { c6state with socketio_connected := false }

def c3info : MonitorInfo :=
  { server_output_name := "a.out", window_exists := true, subscribed := true,
    last_update := 0, min_update_interval := 1, pending_data := none,
    skipped_frames := 0, update_count := 3 }

def c3state : NMState :=
  { active_monitors := [("m1", c3info)], subscribed_outputs := ["a.out"],
    monitor_data_queue :=
      [mkDataItem "m1" (some ⟨[4, 4]⟩) 1, mkDataItem "m1" (some ⟨[4, 4]⟩) 2],
    status_update_queue := [mkStatusItem "m1" "subscribed" 0],
    simple_displays := ["m1"], socketio_connected := false,
    socketio_enabled := true, monitor_running := true, emitted := [] }

/-- The not-due outcome of the consumer loop on a monitor record: the single
pending slot is overwritten with the arriving item and the skipped-frame
counter is incremented. -/
def pendingOverwrite (info : MonitorInfo) (item : Item) : MonitorInfo :=
  { info with pending_data := some item,
              skipped_frames := info.skipped_frames + 1 }

def c8info : MonitorInfo :=
  { server_output_name := "a.out", window_exists := true, subscribed := true,
    last_update := 0, min_update_interval := 5, pending_data := none,
    skipped_frames := 2, update_count := 7 }

def c8item : Item := mkDataItem "m8" (some ⟨[4, 4]⟩) 1

def c8state : NMState :=
  { active_monitors := [("m8", c8info)], subscribed_outputs := ["a.out"],
    monitor_data_queue := [c8item], status_update_queue := [],
    simple_displays := [], socketio_connected := true,
    socketio_enabled := true, monitor_running := true, emitted := [] }

def c9queue : List Item :=
  (List.range 51).map (fun i => mkDataItem "m9" (some ⟨[]⟩) (i : ℚ))

/-! ## Helper lemmas on the monitor table -/

theorem lookupM_delKey_self (k : String) (l : List (String × MonitorInfo)) :
    lookupM k (delKey k l) = none := by
  induction l with
  | nil => rfl
  | cons p rest ih =>
    by_cases h : p.1 = k
    · simpa [delKey, h] using ih
    · simpa [delKey, h, lookupM] using ih

theorem lookupM_updateKey_self (k : String) (v : MonitorInfo)
    (l : List (String × MonitorInfo)) :
    lookupM k (updateKey k v l) =
      if (lookupM k l).isSome then some v else none := by
  induction l with
  | nil => rfl
  | cons p rest ih =>
    by_cases h : p.1 = k
    · simp [updateKey, lookupM, h]
    · simpa [updateKey, lookupM, h] using ih

/-! ## C4: adaptive throttling is a fixed step table, monotone in size -/

/-- C4: a successfully rendered 2-dimensional payload of shape `h × w`
recomputes the monitor's `min_update_interval` as `adaptiveInterval (h * w)`,
the fixed step table, and that table is non-decreasing in the element count:
`n1 ≤ n2` implies the interval for `n2` is at least the interval for `n1`. -/
theorem min_update_interval_monotone (s : NMState) (mid : String)
    (info : MonitorInfo) (h w n1 n2 : Nat) (now : ℚ)
    (hm : lookupM mid s.active_monitors = some info)
    (hw : info.window_exists = true) (hle : n1 ≤ n2) :
    (process_and_plot_data_main_thread s mid (some ⟨[h, w]⟩) now).2 = true ∧
    Option.map MonitorInfo.min_update_interval
        (lookupM mid
          (process_and_plot_data_main_thread s mid (some ⟨[h, w]⟩) now).1.active_monitors)
      = some (adaptiveInterval (h * w)) ∧
    adaptiveInterval n1 ≤ adaptiveInterval n2 := by
  refine ⟨?_, ?_, ?_⟩
  · simp [process_and_plot_data_main_thread, hm, hw]
  · simp [process_and_plot_data_main_thread, hm, hw, updateAfterRender,
      lookupM_updateKey_self]
  · unfold adaptiveInterval
    split_ifs <;> first | (exfalso; omega) | norm_num

theorem min_update_interval_monotone_witness :
    (process_and_plot_data_main_thread c4state "m4" (some ⟨[2000, 2000]⟩) 1).2
        = true ∧
    Option.map MonitorInfo.min_update_interval
        (lookupM "m4"
          (process_and_plot_data_main_thread c4state "m4"
            (some ⟨[2000, 2000]⟩) 1).1.active_monitors)
      = some (adaptiveInterval (2000 * 2000)) ∧
    adaptiveInterval (100 * 100) ≤ adaptiveInterval (2000 * 2000) := by
  have hm : lookupM "m4" c4state.active_monitors =
      some { server_output_name := "psf.out", window_exists := true,
             subscribed := true, last_update := 0,
             min_update_interval := 1, pending_data := none,
             skipped_frames := 0, update_count := 0 } := by
    decide
  exact min_update_interval_monotone c4state "m4" _ 2000 2000
    (100 * 100) (2000 * 2000) 1 hm rfl (by norm_num)

/-! ## C5: the flow controller's pull request -/

/-- C5: `request_next_frame` emits nothing when the transport is
disconnected or when no output names are subscribed; otherwise it emits
exactly one `newdata` message whose payload is the full current list of
subscribed output names. -/
theorem request_next_frame_spec (s : NMState) :
    (s.socketio_connected = false → request_next_frame s = s) ∧
    (s.subscribed_outputs = [] → request_next_frame s = s) ∧
    (s.socketio_connected = true → s.subscribed_outputs ≠ [] →
      request_next_frame s =
        { s with emitted :=
            s.emitted ++ [Emission.newdata s.subscribed_outputs] }) := by
  refine ⟨fun h => ?_, fun h => ?_, fun h1 h2 => ?_⟩
  · simp [request_next_frame, h]
  · simp [request_next_frame, h]
  · simp [request_next_frame, h1, h2]

theorem request_next_frame_spec_witness :
    request_next_frame c5state =
      { c5state with emitted :=
          c5state.emitted ++ [Emission.newdata c5state.subscribed_outputs] } :=
  (request_next_frame_spec c5state).2.2 rfl (by decide)

/-! ## C1: queue capacity bounds and overflow policies -/

theorem dataQueuePut_length_le (q : List Item) (it : Item)
    (h : q.length ≤ 100) : (dataQueuePut q it).length ≤ 100 := by
  unfold dataQueuePut
  split
  · simp only [List.length_append, List.length_cons, List.length_nil]
    omega
  · exact h

theorem foldl_dataQueuePut_length_le (l : List (String × MonitorInfo))
    (raw : Option RawData) (now : ℚ) (q : List Item) (h : q.length ≤ 100) :
    (l.foldl (fun q p => dataQueuePut q (mkDataItem p.1 raw now)) q).length
      ≤ 100 := by
  induction l generalizing q with
  | nil => simpa using h
  | cons p rest ih => exact ih _ (dataQueuePut_length_le _ _ h)

/-- C1 (amended): neither ingestion queue ever exceeds its capacity (50 for
status, 100 for data). On overflow the status queue evicts its oldest item to
admit the newest, but the data queue drops the incoming event instead: a
`data_update` arriving with the queue at 100 leaves it unchanged. -/
theorem queue_capacity_amended (s : NMState) (mid st name : String)
    (raw : Option RawData) (now : ℚ)
    (hst : s.status_update_queue.length ≤ 50)
    (hdt : s.monitor_data_queue.length ≤ 100) :
    (safe_update_monitor_status s mid st now).status_update_queue.length ≤ 50 ∧
    (s.status_update_queue.length = 50 →
      (safe_update_monitor_status s mid st now).status_update_queue
        = s.status_update_queue.tail ++ [mkStatusItem mid st now]) ∧
    (data_update s name raw now).monitor_data_queue.length ≤ 100 ∧
    (s.monitor_data_queue.length = 100 →
      (data_update s name raw now).monitor_data_queue
        = s.monitor_data_queue) := by
  refine ⟨?_, fun h50 => ?_, ?_, fun h100 => ?_⟩
  · simp only [safe_update_monitor_status, statusQueuePush]
    split <;>
      (simp only [List.length_append, List.length_tail, List.length_cons,
        List.length_nil]; omega)
  · simp [safe_update_monitor_status, statusQueuePush, h50]
  · unfold data_update
    split
    · exact hdt
    · split
      · exact hdt
      · split
        · exact hdt
        · exact foldl_dataQueuePut_length_le _ _ _ _ (by omega)
  · unfold data_update
    split
    · rfl
    · split
      · rfl
      · split
        · rfl
        · omega

/-- C1 counterexample: with the data queue at its capacity of 100 and an
active monitor matching the event, `data_update` leaves the queue unchanged —
the newest item is dropped while the oldest stays at the front, refuting the
evict-oldest-to-admit-newest policy for the data queue. -/
theorem data_queue_overflow_counterexample :
    c1state.monitor_data_queue.length = 100 ∧
    data_update c1state "a.out" (some ⟨[]⟩) 100 = c1state ∧
    c1state.monitor_data_queue.head? = some (mkDataItem "m0" (some ⟨[]⟩) 0) := by
  refine ⟨by decide, by decide, by decide⟩

theorem queue_capacity_amended_witness :
    (safe_update_monitor_status c1stateB "m0" "receiving" 1).status_update_queue.length ≤ 50 ∧
    (data_update c1stateB "a.out" (some ⟨[]⟩) 1).monitor_data_queue.length ≤ 100 := by
  have h := queue_capacity_amended c1stateB "m0" "receiving" "a.out"
    (some ⟨[]⟩) 1 (by decide) (by decide)
  exact ⟨h.1, h.2.2.1⟩

/-! ## C7: what the connect path emits -/

/-- C7 (amended): on (re)connection the core does not re-subscribe registry
entries. The `connect` handler emits only `get_params` and leaves the
subscribed set untouched, and `_connect_socketio` itself emits only the
`test_connection` diagnostic; no subscribe/request covering the subscribed
names is re-issued. -/
theorem connect_no_resubscribe (s : NMState) (now : ℚ) :
    (on_connect s now).emitted = s.emitted ++ [Emission.get_params] ∧
    (on_connect s now).subscribed_outputs = s.subscribed_outputs ∧
    (s.socketio_enabled = true →
      (sioConnect s).emitted = s.emitted ++ [Emission.test_connection]) := by
  refine ⟨rfl, rfl, fun h => ?_⟩
  simp [sioConnect, h]

/-- C7 counterexample: reconnecting while `"psf.out"` is still in the
subscribed set emits only `get_params` (respectively `test_connection` from
the connect call) — no wire-level subscribe/request covering the subscribed
name is re-issued on reconnect. -/
theorem connect_handler_counterexample :
    c7state.subscribed_outputs = ["psf.out"] ∧
    (on_connect c7state 0).emitted = [Emission.get_params] ∧
    (sioConnect c7state).emitted = [Emission.test_connection] := by
  refine ⟨rfl, rfl, by decide⟩

theorem connect_no_resubscribe_witness :
    (sioConnect c7state).emitted
      = c7state.emitted ++ [Emission.test_connection] :=
  (connect_no_resubscribe c7state 0).2.2 rfl

/-! ## C6: subscribe idempotence and deferral -/

theorem foldl_safe_status_shape (mids : List String) (st0 : String) (now : ℚ)
    (s : NMState) :
    ∃ q, mids.foldl
        (fun acc mid => safe_update_monitor_status acc mid st0 now) s
      = { s with status_update_queue := q } := by
  induction mids generalizing s with
  | nil => exact ⟨s.status_update_queue, rfl⟩
  | cons m rest ih =>
    obtain ⟨q, hq⟩ := ih (safe_update_monitor_status s m st0 now)
    exact ⟨q, hq⟩

theorem markSubscribed_shape (s : NMState) (name : String) (now : ℚ) :
    ∃ a q, markSubscribed s name now
      = { s with active_monitors := a, status_update_queue := q } := by
  unfold markSubscribed
  obtain ⟨q, hq⟩ := foldl_safe_status_shape
    ((s.active_monitors.filter
        (fun p => p.2.server_output_name = name)).map Prod.fst)
    "subscribed" now
    { s with active_monitors :=
        (s.active_monitors.map (fun p =>
          if p.2.server_output_name = name then
            (p.1, { p.2 with subscribed := true })
          else p)) }
  exact ⟨_, q, hq⟩

/-- C6 (amended): subscribing a name already in the subscribed set leaves the
set unchanged and, when the transport is disconnected, is a complete no-op;
when disconnected a first subscribe only records the addition locally and
emits nothing. However, when the transport is connected every subscribe call
— including a repeated one — additionally runs `_request_next_frame`, so a
repeat subscribe does cause a wire-level `newdata` emission. -/
theorem subscribe_output_amended (s : NMState) (name : String) (now : ℚ) :
    (name ≠ "" → name ∈ s.subscribed_outputs → s.socketio_connected = false →
      subscribe_output s name now = s) ∧
    (name ≠ "" → name ∈ s.subscribed_outputs → s.socketio_connected = true →
      subscribe_output s name now = request_next_frame s) ∧
    (name ≠ "" → name ∉ s.subscribed_outputs → s.socketio_connected = false →
      (subscribe_output s name now).subscribed_outputs
          = s.subscribed_outputs ++ [name] ∧
      (subscribe_output s name now).emitted = s.emitted) := by
  refine ⟨fun hn hm hc => ?_, fun hn hm hc => ?_, fun hn hm hc => ?_⟩
  · simp [subscribe_output, subscribeEmitPhase, hn, hm, hc]
  · simp [subscribe_output, subscribeEmitPhase, hn, hm, hc]
  · obtain ⟨a, q, hq⟩ := markSubscribed_shape
      { s with subscribed_outputs := s.subscribed_outputs ++ [name] } name now
    rw [subscribe_output, if_neg hn, if_neg hm, hq]
    simp [subscribeEmitPhase, hc]

/-- C6 counterexample: subscribing a name that is already present in the
subscribed set while the transport is connected emits an additional
wire-level `newdata` request, refuting "no additional wire emission". -/
theorem subscribe_repeat_emits_counterexample :
    "a.out" ∈ c6state.subscribed_outputs ∧ c6state.emitted = [] ∧
    (subscribe_output c6state "a.out" 0).emitted
      = [Emission.newdata ["a.out"]] := by
  refine ⟨by decide, rfl, by decide⟩

theorem subscribe_output_amended_witness :
    subscribe_output c6stateB "a.out" 0 = c6stateB :=
  (subscribe_output_amended c6stateB "a.out" 0).1
    (by decide) (by decide) rfl

/-! ## C10: queue purge is exactly an order-preserving filter -/

theorem drainKeep_eq (mid : String) (q : List Item) : ∀ temp : List Item,
    drainKeep mid q temp
      = temp ++ q.filter (fun it => ¬ it.monitor_id = some mid) := by
  induction q with
  | nil => intro temp; simp [drainKeep]
  | cons it rest ih =>
    intro temp
    by_cases h : it.monitor_id = some mid
    · simp [drainKeep, h, ih]
    · simp [drainKeep, h, ih]

theorem putBackAll_eq (l : List Item) : ∀ main : List Item,
    putBackAll l main = main ++ l := by
  induction l with
  | nil => intro main; simp [putBackAll]
  | cons it rest ih => intro main; simp [putBackAll, ih]

theorem clear_queue_for_monitor_eq (mid : String) (q : List Item) :
    clear_queue_for_monitor mid q
      = q.filter (fun it => ¬ it.monitor_id = some mid) := by
  unfold clear_queue_for_monitor
  rw [drainKeep_eq, putBackAll_eq]
  simp

/-- C10: `_clear_queue_for_monitor` leaves every item not addressed to `mid`
in the data queue in their original relative order: the rebuilt queue equals
the original queue with exactly the items carrying `mid` removed. -/
theorem clear_queue_filter_spec (mid : String) (q : List Item) :
    clear_queue_for_monitor mid q
      = q.filter (fun it => ¬ it.monitor_id = some mid) :=
  clear_queue_for_monitor_eq mid q

/-! ## C3: what closing a monitor purges -/

theorem filter_mid_clear (mid : String) (q : List Item) :
    (clear_queue_for_monitor mid q).filter
      (fun it => it.monitor_id = some mid) = [] := by
  rw [clear_queue_for_monitor_eq]
  induction q with
  | nil => rfl
  | cons it rest ih =>
    by_cases h : it.monitor_id = some mid <;> simp [h, ih]

theorem stopIfEmpty_queues (s : NMState) :
    (stopIfEmpty s).monitor_data_queue = s.monitor_data_queue ∧
    (stopIfEmpty s).status_update_queue = s.status_update_queue ∧
    (stopIfEmpty s).active_monitors = s.active_monitors := by
  unfold stopIfEmpty
  split <;> exact ⟨rfl, rfl, rfl⟩

/-- C3 (amended): after `close(m)` of an open monitor `m`, no item remaining
in the DATA ingestion queue carries monitor id `m`. (The status queue is not
purged by `_close_monitor`; see the counterexample.) -/
theorem close_monitor_purges_data_queue (s : NMState) (mid : String) (now : ℚ)
    (h : (lookupM mid s.active_monitors).isSome = true) :
    (close_monitor s mid now).monitor_data_queue.filter
      (fun it => it.monitor_id = some mid) = [] := by
  obtain ⟨info, hinfo⟩ := Option.isSome_iff_exists.mp h
  unfold close_monitor
  rw [hinfo]
  rw [(stopIfEmpty_queues _).1]
  exact filter_mid_clear mid _

/-- C3 counterexample: closing the open monitor `m1` leaves a status-queue
item that still carries monitor id `m1` — only the data queue is purged, so
the claim quantified over both ingestion queues fails. -/
theorem close_status_queue_counterexample :
    (lookupM "m1" c3state.active_monitors).isSome = true ∧
    (close_monitor c3state "m1" 3).status_update_queue
      = [mkStatusItem "m1" "subscribed" 0] ∧
    (close_monitor c3state "m1" 3).monitor_data_queue = [] := by
  refine ⟨by decide, by decide, by decide⟩

theorem close_monitor_purges_witness :
    (close_monitor c3state "m1" 3).monitor_data_queue.filter
      (fun it => it.monitor_id = some "m1") = [] :=
  close_monitor_purges_data_queue c3state "m1" 3 (by decide)

/-! ## C2: closing twice equals closing once -/

theorem close_monitor_of_none (s : NMState) (mid : String) (now : ℚ)
    (h : lookupM mid s.active_monitors = none) :
    close_monitor s mid now = s := by
  unfold close_monitor
  rw [h]

theorem lookupM_map_fst (k : String) (l : List (String × MonitorInfo))
    (f : String × MonitorInfo → String × MonitorInfo)
    (hf : ∀ p, (f p).1 = p.1) (h : lookupM k l = none) :
    lookupM k (l.map f) = none := by
  induction l with
  | nil => rfl
  | cons p rest ih =>
    by_cases hpk : p.1 = k
    · rw [lookupM, if_pos hpk] at h
      exact absurd h (by simp)
    · rw [lookupM, if_neg hpk] at h
      rw [List.map_cons, lookupM, hf p, if_neg hpk]
      exact ih h

theorem send_unsubscribe_request_active (s : NMState) (name : String) :
    (send_unsubscribe_request s name).active_monitors = s.active_monitors := by
  unfold send_unsubscribe_request
  split <;> rfl

theorem markUnsubscribed_lookup_none (s : NMState) (name : String) (now : ℚ)
    (mid : String) (h : lookupM mid s.active_monitors = none) :
    lookupM mid (markUnsubscribed s name now).active_monitors = none := by
  unfold markUnsubscribed
  obtain ⟨q, hq⟩ := foldl_safe_status_shape
    ((s.active_monitors.filter
        (fun p => p.2.server_output_name = name)).map Prod.fst)
    "unsubscribed" now
    { s with active_monitors :=
        (s.active_monitors.map (fun p =>
          if p.2.server_output_name = name then
            (p.1, { p.2 with subscribed := false })
          else p)) }
  rw [hq]
  refine lookupM_map_fst mid s.active_monitors _ (fun p => ?_) h
  by_cases hp : p.2.server_output_name = name <;> simp [hp]

theorem unsubscribe_output_lookup_none (s : NMState) (name : String)
    (now : ℚ) (mid : String) (h : lookupM mid s.active_monitors = none) :
    lookupM mid (unsubscribe_output s name now).active_monitors = none := by
  unfold unsubscribe_output
  split
  · exact h
  · split
    · exact markUnsubscribed_lookup_none _ _ _ _
        (by rw [send_unsubscribe_request_active]; exact h)
    · exact h

theorem lookupM_close_monitor_self (s : NMState) (mid : String) (now : ℚ)
    (info : MonitorInfo) (h : lookupM mid s.active_monitors = some info) :
    lookupM mid (close_monitor s mid now).active_monitors = none := by
  unfold close_monitor
  rw [h, (stopIfEmpty_queues _).2.2]
  show lookupM mid (purgePhase _ mid).active_monitors = none
  unfold purgePhase
  split
  · exact lookupM_delKey_self mid s.active_monitors
  · exact unsubscribe_output_lookup_none _ _ _ _
      (lookupM_delKey_self mid s.active_monitors)

/-- C2: `_close_monitor` is idempotent: closing the same monitor id a second
time is a complete no-op — the second call returns the state of the first
unchanged (same monitor table, subscription set, queues, and emission log,
hence no duplicate wire-level unsubscribe). -/
theorem close_monitor_idempotent (s : NMState) (mid : String) (now now' : ℚ) :
    close_monitor (close_monitor s mid now) mid now'
      = close_monitor s mid now := by
  cases hl : lookupM mid s.active_monitors with
  | none =>
    rw [close_monitor_of_none s mid now hl, close_monitor_of_none s mid now' hl]
  | some info =>
    exact close_monitor_of_none _ _ _
      (lookupM_close_monitor_self s mid now info hl)

/-! ## C8: consumer-loop batch bound and pending-slot overwrite -/

theorem process_and_plot_queue (s : NMState) (mid : String)
    (raw : Option RawData) (now : ℚ) :
    (process_and_plot_data_main_thread s mid raw now).1.monitor_data_queue
      = s.monitor_data_queue := by
  unfold process_and_plot_data_main_thread updateAfterRender
  repeat' split
  all_goals rfl

theorem setLastUpdate_queue (s : NMState) (mid : String) (now : ℚ) :
    (setLastUpdate s mid now).monitor_data_queue = s.monitor_data_queue := by
  unfold setLastUpdate
  split <;> rfl

theorem consumeOne_queue (s : NMState) (now : ℚ) (it : Item)
    (rest : List Item) (h : s.monitor_data_queue = it :: rest) :
    (consumeOne s now).1.monitor_data_queue = rest := by
  unfold consumeOne
  rw [h]
  dsimp only
  repeat' split
  all_goals
    simp only [setLastUpdate_queue, process_and_plot_queue,
      safe_update_monitor_status]

theorem dataDrainLoop_queue (fuel : Nat) (s : NMState) (now : ℚ) :
    (dataDrainLoop fuel s now).1.monitor_data_queue
      = s.monitor_data_queue.drop (min fuel s.monitor_data_queue.length) := by
  induction fuel generalizing s with
  | zero => simp [dataDrainLoop]
  | succ n ih =>
    unfold dataDrainLoop
    cases hq : s.monitor_data_queue with
    | nil => simp [hq]
    | cons it rest =>
      dsimp only
      rw [ih, consumeOne_queue s now it rest hq]
      simp [Nat.succ_min_succ]

theorem pendingSweepOne_queue (s : NMState) (mid : String) (now : ℚ) :
    (pendingSweepOne s mid now).monitor_data_queue
      = s.monitor_data_queue := by
  unfold pendingSweepOne
  split
  · rfl
  · split
    · rfl
    · split
      · dsimp only
        split
        · simp only [safe_update_monitor_status]
          split
          · exact process_and_plot_queue _ _ _ _
          · exact process_and_plot_queue _ _ _ _
        · exact process_and_plot_queue _ _ _ _
      · rfl

theorem foldl_pendingSweep_queue (mids : List String) (s : NMState)
    (now : ℚ) :
    ((mids.foldl (fun st mid => pendingSweepOne st mid now) s).monitor_data_queue)
      = s.monitor_data_queue := by
  induction mids generalizing s with
  | nil => rfl
  | cons m rest ih => rw [List.foldl_cons, ih, pendingSweepOne_queue]

/-- C8: one invocation of the consumer loop dequeues at most 5 data-queue
items (exactly `min 5 (length)` of them), and each dequeued `data_update`
item whose monitor exists with a live window but is not yet due (elapsed
time below `min_update_interval`) overwrites that monitor's single
pending-sample slot with the item (most-recent-wins) and increments its
skipped-frame counter. -/
theorem consumer_batch_and_pending (s : NMState) (now : ℚ) :
    (monitor_update_frame s now).1.monitor_data_queue
      = s.monitor_data_queue.drop (min 5 s.monitor_data_queue.length) ∧
    (∀ (item : Item) (rest : List Item) (mid : String) (info : MonitorInfo),
      s.monitor_data_queue = item :: rest →
      item.type = ItemType.data_update →
      item.monitor_id = some mid →
      lookupM mid s.active_monitors = some info →
      info.window_exists = true →
      now - info.last_update < info.min_update_interval →
      lookupM mid (consumeOne s now).1.active_monitors
        = some (pendingOverwrite info item) ∧
      (consumeOne s now).2.2 = 1) := by
  constructor
  · unfold monitor_update_frame
    dsimp only
    rw [foldl_pendingSweep_queue, dataDrainLoop_queue]
  · intro item rest mid info hq ht hmid hinfo hw hlt
    unfold consumeOne
    rw [hq]
    dsimp only
    rw [if_pos ht, hmid]
    dsimp only
    rw [hinfo]
    dsimp only
    rw [if_neg (by simp [hw]), if_neg (not_le.mpr hlt)]
    refine ⟨?_, rfl⟩
    rw [lookupM_updateKey_self]
    simp [hinfo, pendingOverwrite]

theorem consumer_batch_and_pending_witness :
    lookupM "m8" (consumeOne c8state 1).1.active_monitors
      = some (pendingOverwrite c8info c8item) ∧
    (consumeOne c8state 1).2.2 = 1 :=
  (consumer_batch_and_pending c8state 1).2 c8item [] "m8" c8info
    rfl rfl rfl (by decide) rfl (by norm_num [c8info])

/-! ## C9: queue-health compaction -/

theorem getLast?_cons_eq {α : Type} (a : α) (l : List α) :
    (a :: l).getLast? = some (l.getLast?.getD a) := by
  induction l generalizing a with
  | nil => rfl
  | cons b t ih =>
    rw [List.getLast?_cons_cons, ih b]
    simp

theorem foldl_choice_last {α : Type} (l : List α) : ∀ acc : Option α,
    l.foldl (fun _ it => some it) acc
      = match l.getLast? with
        | none => acc
        | some x => some x := by
  induction l with
  | nil => intro acc; rfl
  | cons a t ih =>
    intro acc
    rw [List.foldl_cons, ih (some a), getLast?_cons_eq]
    cases h : t.getLast? <;> simp

theorem upsert_keys_mem (k : Option String) (v : Item)
    (l : List (Option String × Item)) (x : Option String)
    (hx : x ∈ (upsertLatest k v l).map Prod.fst) :
    x = k ∨ x ∈ l.map Prod.fst := by
  induction l with
  | nil => simpa [upsertLatest] using hx
  | cons p rest ih =>
    by_cases hp : p.1 = k
    · rw [upsertLatest, if_pos hp] at hx
      rcases List.mem_cons.mp hx with h | h
      · exact Or.inl h
      · exact Or.inr (List.mem_cons.mpr (Or.inr h))
    · rw [upsertLatest, if_neg hp] at hx
      rcases List.mem_cons.mp hx with h | h
      · exact Or.inr (List.mem_cons.mpr (Or.inl h))
      · rcases ih h with h' | h'
        · exact Or.inl h'
        · exact Or.inr (List.mem_cons.mpr (Or.inr h'))

theorem upsert_keys_nodup (k : Option String) (v : Item)
    (l : List (Option String × Item)) (h : latestKeysNodup l) :
    latestKeysNodup (upsertLatest k v l) := by
  induction l with
  | nil => simp [upsertLatest, latestKeysNodup]
  | cons p rest ih =>
    rw [latestKeysNodup, List.map_cons, List.nodup_cons] at h
    by_cases hp : p.1 = k
    · rw [latestKeysNodup, upsertLatest, if_pos hp, List.map_cons,
        List.nodup_cons]
      exact ⟨by rw [← hp]; exact h.1, h.2⟩
    · rw [latestKeysNodup, upsertLatest, if_neg hp, List.map_cons,
        List.nodup_cons]
      refine ⟨fun hmem => ?_, ih h.2⟩
      rcases upsert_keys_mem k v rest p.1 hmem with h' | h'
      · exact hp h'
      · exact h.1 h'

theorem upsert_latestInv (k : Option String) (v : Item)
    (l : List (Option String × Item)) (hl : latestInv l)
    (hv : v.type = ItemType.data_update ∧ v.monitor_id = k) :
    latestInv (upsertLatest k v l) := by
  induction l with
  | nil =>
    intro p hp
    rcases List.mem_singleton.mp hp with rfl
    exact hv
  | cons p rest ih =>
    have hl1 := hl p (List.mem_cons_self p rest)
    have hl2 : latestInv rest := fun r hr => hl r (List.mem_cons_of_mem p hr)
    by_cases hp : p.1 = k
    · rw [upsertLatest, if_pos hp]
      intro r hr
      rcases List.mem_cons.mp hr with rfl | hr'
      · exact hv
      · exact hl2 r hr'
    · rw [upsertLatest, if_neg hp]
      intro r hr
      rcases List.mem_cons.mp hr with rfl | hr'
      · exact hl1
      · exact ih hl2 r hr'

theorem valuesFor_cons (k : Option String) (p : Option String × Item)
    (l : List (Option String × Item)) :
    valuesFor k (p :: l)
      = if p.1 = k then p.2 :: valuesFor k l else valuesFor k l := by
  by_cases h : p.1 = k
  · simp [valuesFor, List.filter_cons, h]
  · simp [valuesFor, List.filter_cons, h]

theorem valuesFor_of_not_mem (k : Option String)
    (l : List (Option String × Item)) (h : k ∉ l.map Prod.fst) :
    valuesFor k l = [] := by
  induction l with
  | nil => rfl
  | cons p rest ih =>
    rw [List.map_cons, List.mem_cons, not_or] at h
    have h1 : ¬ p.1 = k := fun hc => h.1 hc.symm
    rw [valuesFor_cons, if_neg h1]
    exact ih h.2

theorem valuesFor_upsert_self (k : Option String) (v : Item)
    (l : List (Option String × Item)) (h : latestKeysNodup l) :
    valuesFor k (upsertLatest k v l) = [v] := by
  induction l with
  | nil => simp [upsertLatest, valuesFor]
  | cons p rest ih =>
    rw [latestKeysNodup, List.map_cons, List.nodup_cons] at h
    by_cases hp : p.1 = k
    · rw [upsertLatest, if_pos hp, valuesFor_cons, if_pos rfl]
      have hk : k ∉ rest.map Prod.fst := by rw [← hp]; exact h.1
      rw [valuesFor_of_not_mem k rest hk]
    · rw [upsertLatest, if_neg hp, valuesFor_cons, if_neg hp]
      exact ih h.2

theorem valuesFor_upsert_ne (k k' : Option String) (v : Item)
    (l : List (Option String × Item)) (hk : ¬ k = k') :
    valuesFor k' (upsertLatest k v l) = valuesFor k' l := by
  induction l with
  | nil => simp [upsertLatest, valuesFor_cons, valuesFor, hk]
  | cons p rest ih =>
    by_cases hp : p.1 = k
    · rw [upsertLatest, if_pos hp, valuesFor_cons, valuesFor_cons,
        if_neg hk, if_neg (hp ▸ hk)]
    · rw [upsertLatest, if_neg hp, valuesFor_cons, valuesFor_cons]
      by_cases hpk : p.1 = k'
      · rw [if_pos hpk, if_pos hpk, ih]
      · rw [if_neg hpk, if_neg hpk, ih]

theorem valuesFor_head_toList (k : Option String)
    (l : List (Option String × Item)) (h : latestKeysNodup l) :
    valuesFor k l = (valuesFor k l).head?.toList := by
  induction l with
  | nil => rfl
  | cons p rest ih =>
    rw [latestKeysNodup, List.map_cons, List.nodup_cons] at h
    by_cases hp : p.1 = k
    · have hk : k ∉ rest.map Prod.fst := by rw [← hp]; exact h.1
      rw [valuesFor_cons, if_pos hp, valuesFor_of_not_mem k rest hk]
      rfl
    · rw [valuesFor_cons, if_neg hp]
      exact ih h.2

theorem healthScan_temp (q : List Item) :
    ∀ (latest : List (Option String × Item)) (temp : List Item),
      (healthScan q latest temp).2
        = temp ++ q.filter (fun it => !(it.type == ItemType.data_update)) := by
  induction q with
  | nil => intro latest temp; simp [healthScan]
  | cons it rest ih =>
    intro latest temp
    by_cases h : it.type = ItemType.data_update
    · rw [healthScan, if_pos h, ih, List.filter_cons]
      simp [h]
    · rw [healthScan, if_neg h, ih, List.filter_cons]
      simp [h]

theorem healthScan_inv (q : List Item) :
    ∀ (latest : List (Option String × Item)) (temp : List Item),
      latestInv latest → latestKeysNodup latest →
      latestInv (healthScan q latest temp).1 ∧
      latestKeysNodup (healthScan q latest temp).1 := by
  induction q with
  | nil => intro latest temp h1 h2; exact ⟨h1, h2⟩
  | cons it rest ih =>
    intro latest temp h1 h2
    by_cases h : it.type = ItemType.data_update
    · rw [healthScan, if_pos h]
      exact ih _ _ (upsert_latestInv _ _ _ h1 ⟨h, rfl⟩)
        (upsert_keys_nodup _ _ _ h2)
    · rw [healthScan, if_neg h]
      exact ih _ _ h1 h2

theorem healthScan_values (k : Option String) (q : List Item) :
    ∀ (latest : List (Option String × Item)) (temp : List Item),
      latestKeysNodup latest →
      valuesFor k (healthScan q latest temp).1
        = ((q.filter (isDataFor k)).foldl (fun _ it => some it)
            (valuesFor k latest).head?).toList := by
  induction q with
  | nil =>
    intro latest temp h
    rw [healthScan, List.filter_nil, List.foldl_nil]
    exact valuesFor_head_toList k latest h
  | cons it rest ih =>
    intro latest temp h
    by_cases hd : it.type = ItemType.data_update
    · by_cases hk : it.monitor_id = k
      · have hf : isDataFor k it = true := by simp [isDataFor, hd, hk]
        rw [healthScan, if_pos hd, List.filter_cons, if_pos (by simpa using hf),
          List.foldl_cons, ih _ _ (upsert_keys_nodup _ _ _ h)]
        rw [hk, valuesFor_upsert_self k it latest h]
        rfl
      · have hf : isDataFor k it = false := by simp [isDataFor, hk]
        rw [healthScan, if_pos hd, List.filter_cons,
          if_neg (by simp [hf]), ih _ _ (upsert_keys_nodup _ _ _ h)]
        rw [valuesFor_upsert_ne it.monitor_id k it latest hk]
    · have hf : isDataFor k it = false := by simp [isDataFor, hd]
      rw [healthScan, if_neg hd, List.filter_cons, if_neg (by simp [hf])]
      exact ih _ _ h

theorem map_snd_filter_isData (k : Option String)
    (l : List (Option String × Item)) (h : latestInv l) :
    (l.map Prod.snd).filter (isDataFor k) = valuesFor k l := by
  induction l with
  | nil => rfl
  | cons p rest ih =>
    have h1 := h p (List.mem_cons_self p rest)
    have h2 : latestInv rest := fun r hr => h r (List.mem_cons_of_mem p hr)
    rw [List.map_cons, List.filter_cons, valuesFor_cons]
    by_cases hp : p.1 = k
    · have hd : isDataFor k p.2 = true := by
        simp [isDataFor, h1.1, hp ▸ h1.2]
      simp [hd, hp, ih h2]
    · have hd : isDataFor k p.2 = false := by
        simp [isDataFor, h1.2, hp]
      simp [hd, hp, ih h2]

theorem map_snd_filter_nondata (l : List (Option String × Item))
    (h : latestInv l) :
    (l.map Prod.snd).filter
      (fun it => !(it.type == ItemType.data_update)) = [] := by
  induction l with
  | nil => rfl
  | cons p rest ih =>
    have h1 := h p (List.mem_cons_self p rest)
    have h2 : latestInv rest := fun r hr => h r (List.mem_cons_of_mem p hr)
    rw [List.map_cons, List.filter_cons]
    have hd : (!(p.2.type == ItemType.data_update)) = false := by
      simp [h1.1]
    simp [hd, ih h2]

theorem filter_isData_of_nondata (k : Option String) (q : List Item) :
    (q.filter (fun it => !(it.type == ItemType.data_update))).filter
      (isDataFor k) = [] := by
  induction q with
  | nil => rfl
  | cons it rest ih =>
    rw [List.filter_cons]
    by_cases h : it.type = ItemType.data_update
    · have hd : (!(it.type == ItemType.data_update)) = false := by simp [h]
      simp [hd, ih]
    · have hd : (!(it.type == ItemType.data_update)) = true := by simp [h]
      have h3 : isDataFor k it = false := by simp [isDataFor, h]
      simp [hd, h3, List.filter_cons, ih]

theorem filter_nondata_idem (q : List Item) :
    (q.filter (fun it => !(it.type == ItemType.data_update))).filter
        (fun it => !(it.type == ItemType.data_update))
      = q.filter (fun it => !(it.type == ItemType.data_update)) := by
  induction q with
  | nil => rfl
  | cons it rest ih =>
    rw [List.filter_cons]
    by_cases h : it.type = ItemType.data_update
    · have hd : (!(it.type == ItemType.data_update)) = false := by simp [h]
      simp [hd, ih]
    · have hd : (!(it.type == ItemType.data_update)) = true := by simp [h]
      simp [hd, List.filter_cons, ih]

/-- C9: whenever the queue-health check fires (data queue holding more than
50 items), the compacted queue contains at most one `data_update` item per
monitor id — exactly the most recently enqueued one for that id — while
every non-data item of the original queue is retained in order. -/
theorem queue_health_compacts (q : List Item) (h : 50 < q.length) :
    (∀ k : Option String,
      (monitor_queue_health q).filter (isDataFor k)
        = ((q.filter (isDataFor k)).getLast?).toList) ∧
    (monitor_queue_health q).filter
        (fun it => !(it.type == ItemType.data_update))
      = q.filter (fun it => !(it.type == ItemType.data_update)) := by
  have hscan := healthScan_inv q [] []
    (fun p hp => absurd hp (List.not_mem_nil p)) (by simp [latestKeysNodup])
  have hq : monitor_queue_health q
      = (healthScan q [] []).1.map Prod.snd ++ (healthScan q [] []).2 := by
    unfold monitor_queue_health
    rw [if_pos h]
  constructor
  · intro k
    rw [hq, List.filter_append,
      map_snd_filter_isData k _ hscan.1,
      healthScan_temp q [] [], List.nil_append, filter_isData_of_nondata,
      List.append_nil,
      healthScan_values k q [] [] (by simp [latestKeysNodup]),
      foldl_choice_last]
    have hv : (valuesFor k ([] : List (Option String × Item))).head? = none := rfl
    rw [hv]
    cases hl : (q.filter (isDataFor k)).getLast? <;> rfl
  · rw [hq, List.filter_append, map_snd_filter_nondata _ hscan.1,
      healthScan_temp q [] []]
    simp [filter_nondata_idem]

theorem queue_health_compacts_witness :
    (monitor_queue_health c9queue).filter (isDataFor (some "m9"))
      = ((c9queue.filter (isDataFor (some "m9"))).getLast?).toList :=
  (queue_health_compacts c9queue (by decide)).1 (some "m9")

end NodeMgr
